import Mathlib

/-!
# ShieldHer — verification of the Mission State Machine and its mutation API

Shallow embedding of the two API generations of the ShieldHer repository:

* v1   : `src/backend/drone_state.py` and `src/backend/app.py`
* v1.1 : `src/shieldher/core/drone_state.py`,
         `src/shieldher/core/mission_controller.py`,
         `src/shieldher/server/app.py`, `src/shieldher/config.py`

JSON payload values are modelled by `JVal`; GPS coordinates by `Rat`
(the claims depend only on conversion success/failure, `None`-ness and
zero-truthiness, never on floating-point rounding).  Python builtins
`float`, `str`, `bool` on JSON values are modelled by `pyFloat`,
`pyStr`, `pyBool`.  `random.randint(a, b)` is modelled by `randint`,
an explicit seeded generator whose range contract matches the builtin.
-/

/-- A JSON scalar value as it arrives in a request payload.
`jnull` also stands for an absent key (Python `dict.get` returns
`None` in both cases). -/
inductive JVal where
  | jnull
  | jbool (b : Bool)
  | jnum (q : Rat)
  | jstr (s : String)
  deriving DecidableEq, Repr

/-- Is the value a string?  (Used for the aiStatus-is-a-string invariant.) -/
def JVal.isString : JVal → Bool
  | .jstr _ => true
  | _ => false

/-- Digit character to its value. -/
def digitVal (c : Char) : Nat := c.toNat - 48

/-- Parse a non-empty all-digit character list to a `Nat`. -/
def parseNatDigits (cs : List Char) : Option Nat :=
  if cs = [] then none
  else if cs.all Char.isDigit then
    some (cs.foldl (fun acc c => 10 * acc + digitVal c) 0)
  else none

/-- Parse an unsigned decimal numeral, `digits` or `digits.digits`. -/
def parseUnsignedDecimal (cs : List Char) : Option Rat :=
  let intPart := cs.takeWhile (· ≠ '.')
  match cs.dropWhile (· ≠ '.') with
  | [] => (parseNatDigits intPart).map (fun n => (n : Rat))
  | '.' :: frac =>
      match parseNatDigits intPart, parseNatDigits frac with
      | some i, some f => some ((i : Rat) + (f : Rat) / ((10 : Rat) ^ frac.length))
      | _, _ => none
  | _ => none

/-- Model of Python `float(s)` on a string: optional sign followed by a
decimal numeral; anything else raises `ValueError` (`none`). -/
def parseDecimal (s : String) : Option Rat :=
  match s.data with
  | '-' :: rest => (parseUnsignedDecimal rest).map Neg.neg
  | '+' :: rest => parseUnsignedDecimal rest
  | cs => parseUnsignedDecimal cs

/-- Model of Python `float(x)` on a JSON value: numbers convert to
themselves, booleans to 0/1, strings are parsed (`ValueError` on
failure), `None` raises `TypeError`.  `none` models the raised
exception. -/
def pyFloat : JVal → Option Rat
  | .jnull => none
  | .jbool b => some (if b then 1 else 0)
  | .jnum q => some q
  | .jstr s => parseDecimal s

/-- Model of Python `str(x)` on a JSON value. -/
def pyStr : JVal → String
  | .jnull => "None"
  | .jbool b => if b then "True" else "False"
  | .jnum q => toString q
  | .jstr s => s

/-- Model of Python `bool(x)` (truthiness) on a JSON value. -/
def pyBool : JVal → Bool
  | .jnull => false
  | .jbool b => b
  | .jnum q => decide (q ≠ 0)
  | .jstr s => decide (s ≠ "")

/-- Model of `random.randint(a, b)`: an explicit seeded draw that is
always within `[a, b]` (the builtin contract, both ends inclusive). -/
def randint (a b seed : Nat) : Nat := a + seed % (b - a + 1)

/-- The shared mission state record.  Field names follow
`shieldher/core/drone_state.py`; the v1 module `backend/drone_state.py`
holds the same fields with `recording` in place of `recording_active`.
`gps_location = {"lat": ..., "lon": ...}` is split into its two
entries, `none` standing for Python `None`.  `ai_status` is kept as a
`JVal` so that the is-a-string invariant is a statement, not a typing
artifact. -/
structure MissionState where
  drone_active : Bool
  recording_active : Bool
  ai_status : JVal
  gps_lat : Option Rat
  gps_lon : Option Rat
  battery_level : Nat
  deriving DecidableEq, Repr

/-- Module-load defaults of `shieldher/core/drone_state.py` (v1.1):
flags false, `ai_status = "Standby"`, GPS absent, `battery_level = 95`. -/
def initState : MissionState :=
  { drone_active := false
    recording_active := false
    ai_status := .jstr "Standby"
    gps_lat := none
    gps_lon := none
    battery_level := 95 }

/-- Module-load defaults of `backend/drone_state.py` (v1): same fields
with `battery_level = 100`. -/
def initStateV1 : MissionState :=
  { initState with battery_level := 100 }

/-- `backend/drone_state.reset()` (v1): unconditionally resets every
field, drawing a fresh battery level with `random.randint(85, 100)`. -/
def reset (seed : Nat) (_s : MissionState) : MissionState :=
  { drone_active := false
    recording_active := false
    ai_status := .jstr "Standby"
    gps_lat := none
    gps_lon := none
    battery_level := randint 85 100 seed }

/-- `shieldher/core/mission_controller.reset_mission()` (v1.1): resets
the two flags, `ai_status` and the GPS pair; `battery_level` is not
assigned and keeps its prior value. -/
def reset_mission (s : MissionState) : MissionState :=
  { s with
    drone_active := false
    recording_active := false
    ai_status := .jstr "Standby"
    gps_lat := none
    gps_lon := none }

/-- `shieldher/core/mission_controller.start_mission(lat, lon)` (v1.1),
state effect: writes the (upstream-validated) GPS pair, sets both flags
true and `ai_status = "Initializing"`. -/
def start_mission (lat lon : Option Rat) (s : MissionState) : MissionState :=
  { s with
    gps_lat := lat
    gps_lon := lon
    drone_active := true
    recording_active := true
    ai_status := .jstr "Initializing" }

/-- `shieldher/config.MISSION_MODE`. -/
def MISSION_MODE : String := "LOCAL"

/-- `shieldher/config.ENABLE_MANUAL_TRIGGER`. -/
def ENABLE_MANUAL_TRIGGER : Bool := true

/-- `mission_controller._is_jetson_mode()`: true iff the configured
mission mode is the string "JETSON". -/
def is_jetson_mode : Bool := MISSION_MODE == "JETSON"

/-- Background work spawned by `start_mission` (v1.1): in JETSON mode
the two external scripts are launched via `subprocess.Popen`; in the
`else` branch (LOCAL mode) nothing is spawned — only log lines are
printed. -/
def start_mission_spawned : List String :=
  if is_jetson_mode then ["drone_demo.py", "ai_detect.py"] else []

/-- `mission_controller.update_ai_status(status)` (v1.1): writes the
given string into shared state. -/
def update_ai_status (status : String) (s : MissionState) : MissionState :=
  { s with ai_status := .jstr status }

/-- A start-request payload: the values found under keys "lat" and
"lon", with `jnull` standing for a missing key or an explicit JSON
null (Python `data.get` returns `None` for both). -/
structure StartPayload where
  lat : JVal
  lon : JVal
  deriving DecidableEq, Repr

/-- One field of the `if x is not None: x = float(x)` idiom: `jnull`
is kept as `None` without conversion; any other value goes through
`float`, whose failure (the raised exception) is the outer `none`. -/
def pyFloatField (v : JVal) : Option (Option Rat) :=
  match v with
  | .jnull => some none
  | v => (pyFloat v).map some

/-- GPS validation of v1 `start_sos` (`backend/app.py`): both
conversions run inside one `try`; if either raises, the `except` arm
stores `{"lat": None, "lon": None}` for the whole payload. -/
def gps_of_payload_v1 (p : StartPayload) : Option Rat × Option Rat :=
  match pyFloatField p.lat, pyFloatField p.lon with
  | some lat, some lon => (lat, lon)
  | _, _ => (none, none)

/-- GPS validation of v1.1 `mission_start` (`shieldher/server/app.py`):
`lat` and `lon` start as `None` and are assigned one at a time inside
one `try`; an exception aborts the remaining assignments but keeps the
ones already made, so a failure on `lon` leaves the converted `lat` in
place. -/
def gps_of_payload_v11 (p : StartPayload) : Option Rat × Option Rat :=
  match pyFloatField p.lat with
  | none => (none, none)
  | some lat =>
    match pyFloatField p.lon with
    | none => (lat, none)
    | some lon => (lat, lon)

/-- Synchronous state writes of the v1 `/start_sos` handler: store the
validated GPS, then `drone_active = False`, `recording = False`,
`ai_status = "Initializing..."` (the background sequencer raises the
flags later). -/
def start_sos_sync (p : StartPayload) (s : MissionState) : MissionState :=
  let g := gps_of_payload_v1 p
  { s with
    gps_lat := g.1
    gps_lon := g.2
    drone_active := false
    recording_active := false
    ai_status := .jstr "Initializing..." }

/-- Background work spawned by the v1 `/start_sos` handler: it always
starts one daemon thread running `simulate_drone_sequence`. -/
def start_sos_spawned : List String := ["simulate_drone_sequence"]

/-- v1 GPS note: chosen by Python truthiness of the stored latitude
(`if drone_state.gps_location["lat"]`), so `None` and `0.0` both read
as unavailable. -/
def gps_note_v1 (lat : Option Rat) : String :=
  if (match lat with | none => false | some q => decide (q ≠ 0)) then
    "with GPS"
  else "without GPS (unavailable)"

/-- v1.1 GPS note: chosen by presence (`if lat is not None`). -/
def gps_note_v11 (lat : Option Rat) : String :=
  if lat.isSome then "with GPS" else "without GPS (unavailable)"

/-- Response of a start endpoint: HTTP status, message, echoed GPS. -/
structure StartResponse where
  status : Nat
  message : String
  lat : Option Rat
  lon : Option Rat
  deriving DecidableEq, Repr

/-- The v1 `/start_sos` handler (`backend/app.py`): validate GPS, do
the synchronous writes, spawn the sequencer thread, answer 200 with a
truthiness-flavoured message and the stored GPS. -/
def start_sos (p : StartPayload) (s : MissionState) :
    StartResponse × MissionState :=
  let s1 := start_sos_sync p s
  ({ status := 200
     message := "SOS received. Drone activating " ++ gps_note_v1 s1.gps_lat ++ "."
     lat := s1.gps_lat
     lon := s1.gps_lon }, s1)

/-- The v1.1 `/api/mission/start` handler (`shieldher/server/app.py`):
validate GPS, delegate to `start_mission`, answer 200 with a
presence-flavoured message and the stored GPS. -/
def mission_start (p : StartPayload) (s : MissionState) :
    StartResponse × MissionState :=
  let g := gps_of_payload_v11 p
  let s1 := start_mission g.1 g.2 s
  ({ status := 200
     message := "Mission started " ++ gps_note_v11 g.1 ++ "."
     lat := s1.gps_lat
     lon := s1.gps_lon }, s1)

/-- A patch-request payload: `some v` when the key is present with
value `v` (`jnull` for an explicit JSON null), `none` when the key is
absent; `extra` carries any unrecognized keys in order. -/
structure PatchPayload where
  ai_status : Option JVal
  drone_active : Option JVal
  recording_active : Option JVal
  extra : List (String × JVal)
  deriving DecidableEq, Repr

/-- The state writes of the v1.1 patch endpoint (the spec name
`applyPartialPatch`): each recognized key present in the payload
overwrites its field after coercion — `str` for `ai_status`, `bool`
for the two flags; absent keys and unrecognized keys touch nothing. -/
def applyPartialPatch (p : PatchPayload) (s : MissionState) : MissionState :=
  let s1 := match p.ai_status with
    | some v => { s with ai_status := .jstr (pyStr v) }
    | none => s
  let s2 := match p.drone_active with
    | some v => { s1 with drone_active := pyBool v }
    | none => s1
  match p.recording_active with
  | some v => { s2 with recording_active := pyBool v }
  | none => s2

/-- Response of the patch endpoint: HTTP status, echoed `applied`
object on success, error string on rejection, and resulting state. -/
structure PatchResult where
  status : Nat
  applied : Option PatchPayload
  error : Option String
  state : MissionState
  deriving DecidableEq, Repr

/-- The v1.1 `/api/mission/patch` handler: when the manual trigger is
disabled, reject with 403 and an error body before touching anything;
otherwise apply the recognized fields and echo the whole parsed
payload back as `"applied"`. -/
def mission_patch (enabled : Bool) (p : PatchPayload) (s : MissionState) :
    PatchResult :=
  if !enabled then
    { status := 403
      applied := none
      error := some "Manual trigger is disabled in config.py."
      state := s }
  else
    { status := 200
      applied := some p
      error := none
      state := applyPartialPatch p s }

/-- The recognized keys present in a patch payload, in source order. -/
def recognizedKeys (p : PatchPayload) : List String :=
  (if p.ai_status.isSome then ["ai_status"] else []) ++
  (if p.drone_active.isSome then ["drone_active"] else []) ++
  (if p.recording_active.isSome then ["recording_active"] else [])

/-- All keys present in a patch payload (recognized ones first, then
the unrecognized ones), i.e. the keys of the Python `data` dict. -/
def payloadKeys (p : PatchPayload) : List String :=
  recognizedKeys p ++ p.extra.map Prod.fst

/-- v1 `simulate_drone_sequence`, first step (after `time.sleep(2)`):
drone airborne. -/
def simStep1 (s : MissionState) : MissionState :=
  { s with drone_active := true, ai_status := .jstr "Drone Activated" }

/-- v1 `simulate_drone_sequence`, second step (after a further
`time.sleep(3)`): camera recording. -/
def simStep2 (s : MissionState) : MissionState :=
  { s with recording_active := true, ai_status := .jstr "Camera Recording" }

/-- v1 `simulate_drone_sequence`, third and last step (after a further
`time.sleep(3)`): human detected; the thread then returns. -/
def simStep3 (s : MissionState) : MissionState :=
  { s with ai_status := .jstr "Human Detected" }

/-- The v1 simulation sequence as written: a sleep duration (seconds)
followed by a mutation, three times — cumulative offsets 2s, 5s, 8s
from mission start. -/
def simSeq : List (Nat × (MissionState → MissionState)) :=
  [(2, simStep1), (3, simStep2), (3, simStep3)]

/-- State visible `t` seconds into a sleep/mutate chain: each step
fires once its sleep has elapsed, consuming that much of the budget. -/
def runSim : Nat → List (Nat × (MissionState → MissionState)) →
    MissionState → MissionState
  | t, (d, f) :: rest, s => if d ≤ t then runSim (t - d) rest (f s) else s
  | _, [], s => s

/-- The operations that can write the shared state across both API
generations (for invariant statements). -/
inductive Op where
  | opReset (seed : Nat)
  | opResetMission
  | opStartMission (lat lon : Option Rat)
  | opStartSos (p : StartPayload)
  | opPatch (enabled : Bool) (p : PatchPayload)
  | opUpdateAi (status : String)
  | opSim1
  | opSim2
  | opSim3
  deriving Repr

/-- Interpretation of one operation as a state transformer. -/
def applyOp : Op → MissionState → MissionState
  | .opReset seed, s => reset seed s
  | .opResetMission, s => reset_mission s
  | .opStartMission lat lon, s => start_mission lat lon s
  | .opStartSos p, s => start_sos_sync p s
  | .opPatch enabled p, s => (mission_patch enabled p s).state
  | .opUpdateAi status, s => update_ai_status status s
  | .opSim1, s => simStep1 s
  | .opSim2, s => simStep2 s
  | .opSim3, s => simStep3 s

/-- Run a list of operations from left to right. -/
def applyOps : List Op → MissionState → MissionState
  | [], s => s
  | op :: rest, s => applyOps rest (applyOp op s)

/-! ## Helper lemmas -/

/-- Once at least 8 seconds have elapsed, the whole v1 simulation
sequence has fired and the chain is exhausted. -/
theorem runSim_simSeq_ge8 (t : Nat) (ht : 8 ≤ t) (s : MissionState) :
    runSim t simSeq s = simStep3 (simStep2 (simStep1 s)) := by
  have h2 : 2 ≤ t := by omega
  have h3 : 3 ≤ t - 2 := by omega
  have h3x : 3 ≤ t - 2 - 3 := by omega
  simp [simSeq, runSim, h2, h3, h3x]

/-- Every single operation keeps `ai_status` a string. -/
theorem applyOp_preserves_string_ai (op : Op) (s : MissionState)
    (h : s.ai_status.isString = true) :
    ((applyOp op s).ai_status).isString = true := by
  cases op with
  | opReset seed => rfl
  | opResetMission => rfl
  | opStartMission lat lon => rfl
  | opStartSos p => rfl
  | opPatch enabled p =>
    cases enabled with
    | false => exact h
    | true =>
      obtain ⟨a, d, r, e⟩ := p
      cases a <;> cases d <;> cases r <;>
        simp_all [applyOp, mission_patch, applyPartialPatch, JVal.isString]
  | opUpdateAi status => rfl
  | opSim1 => rfl
  | opSim2 => rfl
  | opSim3 => rfl

/-- Any sequence of operations keeps `ai_status` a string. -/
theorem applyOps_preserves_string_ai (ops : List Op) :
    ∀ s : MissionState, s.ai_status.isString = true →
      ((applyOps ops s).ai_status).isString = true := by
  induction ops with
  | nil => intro s h; exact h
  | cons op rest ih =>
    intro s h
    exact ih _ (applyOp_preserves_string_ai op s h)

/-! ## Claims -/

/-- C1 counterexample: the claim asserts that the v1 `/start_sos`
handler also leaves droneActive=true, recordingActive=true and
aiStatus="Initializing" synchronously; but on the concrete payload
(lat=1, lon=2) from the v1 defaults, its synchronous writes leave both
flags false and aiStatus="Initializing..." (a different string). -/
theorem c1_counterexample :
    (start_sos_sync ⟨.jnum 1, .jnum 2⟩ initStateV1).gps_lat = some 1 ∧
    (start_sos_sync ⟨.jnum 1, .jnum 2⟩ initStateV1).gps_lon = some 2 ∧
    (start_sos_sync ⟨.jnum 1, .jnum 2⟩ initStateV1).drone_active = false ∧
    (start_sos_sync ⟨.jnum 1, .jnum 2⟩ initStateV1).recording_active = false ∧
    (start_sos_sync ⟨.jnum 1, .jnum 2⟩ initStateV1).ai_status =
      .jstr "Initializing..." := by
  refine ⟨rfl, rfl, rfl, rfl, rfl⟩

/-- C1 (amended): the v1.1 `start_mission(lat, lon)` immediately leaves
gps=(lat, lon), droneActive=true, recordingActive=true and
aiStatus="Initializing"; the v1 `/start_sos` synchronous writes instead
store the validated GPS with droneActive=false, recordingActive=false
and aiStatus="Initializing..." (its sequencer raises the flags later). -/
theorem c1_start_state (lat lon : Option Rat) (p : StartPayload)
    (s t : MissionState) :
    start_mission lat lon s =
      { s with gps_lat := lat, gps_lon := lon, drone_active := true,
               recording_active := true, ai_status := .jstr "Initializing" } ∧
    start_sos_sync p t =
      { t with gps_lat := (gps_of_payload_v1 p).1,
               gps_lon := (gps_of_payload_v1 p).2,
               drone_active := false, recording_active := false,
               ai_status := .jstr "Initializing..." } :=
  ⟨rfl, rfl⟩

/-- C2 counterexample: the claim asserts that every reset, including
the v1.1 `reset_mission`, sets batteryLevel to a random integer in
[85, 100]; but `reset_mission` never assigns the battery field, so
from a state with battery 50 the battery stays 50, outside [85, 100]. -/
theorem c2_counterexample :
    (reset_mission { initState with battery_level := 50 }).battery_level = 50 ∧
    ¬ 85 ≤ (reset_mission { initState with battery_level := 50 }).battery_level := by
  exact ⟨rfl, by decide⟩

/-- C2 (amended): the v1 `reset` unconditionally sets droneActive=false,
recordingActive=false, aiStatus="Standby", gps absent and batteryLevel
to a random integer in [85, 100]; the v1.1 `reset_mission` sets the
same four fields but leaves batteryLevel unchanged; both have no error
conditions and are idempotent up to the battery value. -/
theorem c2_reset_state (seed : Nat) (s t : MissionState) :
    reset seed s =
      { drone_active := false, recording_active := false,
        ai_status := .jstr "Standby", gps_lat := none, gps_lon := none,
        battery_level := randint 85 100 seed } ∧
    85 ≤ randint 85 100 seed ∧ randint 85 100 seed ≤ 100 ∧
    reset_mission t =
      { t with drone_active := false, recording_active := false,
               ai_status := .jstr "Standby", gps_lat := none, gps_lon := none } ∧
    (reset_mission t).battery_level = t.battery_level ∧
    reset_mission (reset_mission t) = reset_mission t := by
  refine ⟨rfl, ?_, ?_, rfl, rfl, rfl⟩ <;> · unfold randint; omega

/-- C3 counterexample: the claim asserts that in the default
(non-hardware) deployment mode every start call arms a fresh
Simulation Sequencer; but the v1.1 `start_mission` in the default
LOCAL mode spawns no background work at all — its non-JETSON branch
only prints log lines. -/
theorem c3_counterexample :
    is_jetson_mode = false ∧ start_mission_spawned = [] := by
  exact ⟨rfl, rfl⟩

/-- C3 (amended): in v1 every `/start_sos` call spawns a fresh
`simulate_drone_sequence` thread, and from mission start the state
evolves exactly as claimed — at T+2s droneActive becomes true with
aiStatus="Drone Activated", at T+5s recordingActive becomes true with
aiStatus="Camera Recording", at T+8s aiStatus becomes "Human Detected"
and the sequencer terminates with no further automatic change; the
v1.1 generation in its default LOCAL mode arms no sequencer (and has
none: no automatic change occurs after its start). -/
theorem c3_simulation_timeline (p : StartPayload) (s : MissionState)
    (t : Nat) (ht : 8 ≤ t) :
    (start_sos_spawned = ["simulate_drone_sequence"] ∧
     start_mission_spawned = [] ∧
     runSim 1 simSeq (start_sos_sync p s) = start_sos_sync p s ∧
     (runSim 2 simSeq (start_sos_sync p s)).drone_active = true ∧
     (runSim 2 simSeq (start_sos_sync p s)).ai_status = .jstr "Drone Activated" ∧
     (runSim 2 simSeq (start_sos_sync p s)).recording_active = false ∧
     (runSim 5 simSeq (start_sos_sync p s)).recording_active = true ∧
     (runSim 5 simSeq (start_sos_sync p s)).ai_status = .jstr "Camera Recording" ∧
     (runSim 8 simSeq (start_sos_sync p s)).ai_status = .jstr "Human Detected") ∧
    runSim t simSeq (start_sos_sync p s) = runSim 8 simSeq (start_sos_sync p s) := by
  refine ⟨⟨rfl, rfl, rfl, rfl, rfl, rfl, rfl, rfl, rfl⟩, ?_⟩
  rw [runSim_simSeq_ge8 t ht, runSim_simSeq_ge8 8 (by omega)]

/-- C3 witness: the timeline theorem applied at the concrete payload
(lat=1, lon=2), the v1 default state and observation time T+10s. -/
theorem c3_simulation_timeline_witness :
    8 ≤ 10 ∧
    runSim 10 simSeq (start_sos_sync ⟨.jnum 1, .jnum 2⟩ initStateV1) =
      runSim 8 simSeq (start_sos_sync ⟨.jnum 1, .jnum 2⟩ initStateV1) :=
  ⟨by decide,
   (c3_simulation_timeline ⟨.jnum 1, .jnum 2⟩ initStateV1 10 (by decide)).2⟩

/-- C4 counterexample: the claim asserts that a malformed individual
GPS field makes the whole payload degrade to both-absent, so the
stored pair is always both-present or both-absent; but the v1.1
handler on payload (lat=5, lon="abc") stores gps=(5, absent) — the
already-converted latitude is kept and only the longitude is dropped. -/
theorem c4_counterexample :
    gps_of_payload_v11 ⟨.jnum 5, .jstr "abc"⟩ = (some 5, none) ∧
    (mission_start ⟨.jnum 5, .jstr "abc"⟩ initState).2.gps_lat = some 5 ∧
    (mission_start ⟨.jnum 5, .jstr "abc"⟩ initState).2.gps_lon = none ∧
    (mission_start ⟨.jnum 5, .jstr "abc"⟩ initState).1.status = 200 := by
  refine ⟨rfl, rfl, rfl, rfl⟩

/-- C4 (amended): start requests never fail (both generations answer
200 for every payload); in v1 a conversion failure on either field
degrades the whole stored pair to both-absent, while in v1.1 a failure
on lat leaves both absent but a failure on lon keeps the
already-converted lat, so the stored pair can be mixed — one
coordinate present, the other absent. -/
theorem c4_gps_validation (p : StartPayload) (s : MissionState) :
    ((pyFloatField p.lat = none ∨ pyFloatField p.lon = none) →
       gps_of_payload_v1 p = (none, none)) ∧
    (pyFloatField p.lat = none → gps_of_payload_v11 p = (none, none)) ∧
    (∀ a, pyFloatField p.lat = some a → pyFloatField p.lon = none →
       gps_of_payload_v11 p = (a, none)) ∧
    (∀ a b, pyFloatField p.lat = some a → pyFloatField p.lon = some b →
       gps_of_payload_v1 p = (a, b) ∧ gps_of_payload_v11 p = (a, b)) ∧
    (start_sos p s).1.status = 200 ∧
    (mission_start p s).1.status = 200 := by
  rcases hlat : pyFloatField p.lat with _ | a <;>
    rcases hlon : pyFloatField p.lon with _ | b <;>
      simp [gps_of_payload_v1, gps_of_payload_v11, hlat, hlon,
        start_sos, mission_start]

/-- C4 witness: the validation theorem applied at the concrete payload
(lat=5, lon="abc") and the v1.1 default state, reading off the
mixed stored pair and the 200 answers. -/
theorem c4_gps_validation_witness :
    gps_of_payload_v11 ⟨.jnum 5, .jstr "abc"⟩ = (some 5, none) ∧
    (start_sos ⟨.jnum 5, .jstr "abc"⟩ initState).1.status = 200 ∧
    (mission_start ⟨.jnum 5, .jstr "abc"⟩ initState).1.status = 200 :=
  ⟨(c4_gps_validation ⟨.jnum 5, .jstr "abc"⟩ initState).2.2.1 (some 5) rfl rfl,
   (c4_gps_validation ⟨.jnum 5, .jstr "abc"⟩ initState).2.2.2.2.1,
   (c4_gps_validation ⟨.jnum 5, .jstr "abc"⟩ initState).2.2.2.2.2⟩

/-- C5: when the manual-patch flag is false, every request to the
patch endpoint, regardless of payload, is rejected with 403 and an
error body, no applied echo, and the mission state is returned
untouched. -/
theorem c5_patch_disabled (p : PatchPayload) (s : MissionState) :
    mission_patch false p s =
      { status := 403, applied := none,
        error := some "Manual trigger is disabled in config.py.",
        state := s } :=
  rfl

/-- C6: `applyPartialPatch` overwrites exactly the fields present in
the input with coerced values (string coercion for aiStatus, boolean
coercion for the two flags), leaves absent fields and the untouched
fields (gps, battery) at their prior values; in particular a patch
carrying only ai_status changes only aiStatus. -/
theorem c6_patch_exact_fields (p : PatchPayload) (s : MissionState) :
    applyPartialPatch p s =
      { s with
        ai_status := match p.ai_status with
          | some v => .jstr (pyStr v)
          | none => s.ai_status
        drone_active := match p.drone_active with
          | some v => pyBool v
          | none => s.drone_active
        recording_active := match p.recording_active with
          | some v => pyBool v
          | none => s.recording_active } ∧
    (∀ v ex, applyPartialPatch
        { ai_status := some v, drone_active := none,
          recording_active := none, extra := ex } s =
      { s with ai_status := .jstr (pyStr v) }) := by
  constructor
  · obtain ⟨a, d, r, e⟩ := p
    cases a <;> cases d <;> cases r <;> rfl
  · intro v ex; rfl

/-- C7 counterexample: the claim asserts that the patch response
echoes exactly the fields actually applied, so a payload with only
unrecognized keys would be echoed as having applied nothing; but the
handler echoes the whole parsed payload — on a payload whose only key
is the unrecognized "foo", the echoed applied object still carries
"foo" while the state is left completely unchanged. -/
theorem c7_counterexample :
    (mission_patch true
        ⟨none, none, none, [("foo", .jnum 1)]⟩ initState).applied =
      some ⟨none, none, none, [("foo", .jnum 1)]⟩ ∧
    payloadKeys ⟨none, none, none, [("foo", .jnum 1)]⟩ = ["foo"] ∧
    recognizedKeys ⟨none, none, none, [("foo", .jnum 1)]⟩ = [] ∧
    (mission_patch true
        ⟨none, none, none, [("foo", .jnum 1)]⟩ initState).state = initState := by
  refine ⟨rfl, rfl, rfl, rfl⟩

/-- C7 (amended): when the manual-patch flag is on, the patch endpoint
echoes back the entire parsed request payload as "applied" — including
keys that were not recognized and therefore not applied — while only
the recognized fields reach the state. -/
theorem c7_patch_echo (p : PatchPayload) (s : MissionState) :
    (mission_patch true p s).applied = some p ∧
    (mission_patch true p s).state = applyPartialPatch p s ∧
    (mission_patch true p s).status = 200 :=
  ⟨rfl, rfl, rfl⟩

/-- C8: `update_ai_status(status)` is, as a function on states, exactly
`applyPartialPatch` of a patch carrying only aiStatus=status, for every
string status and every prior state. -/
theorem c8_update_ai_status_is_patch (status : String) (s : MissionState) :
    update_ai_status status s =
      applyPartialPatch
        { ai_status := some (.jstr status), drone_active := none,
          recording_active := none, extra := [] } s :=
  rfl

/-- C9: aiStatus holds a string after every sequence of operations of
either generation — both initial states hold the string "Standby", and
every operation (resets, starts, patches with their str coercion,
update_ai_status, and the three sequencer steps) preserves
string-ness. -/
theorem c9_ai_status_is_string (ops : List Op) :
    ((applyOps ops initState).ai_status).isString = true ∧
    ((applyOps ops initStateV1).ai_status).isString = true :=
  ⟨applyOps_preserves_string_ai ops initState rfl,
   applyOps_preserves_string_ai ops initStateV1 rfl⟩

/-- C10: with latitude exactly 0 (and longitude 1), the v1 handler
stores and returns gps=(0, 1) yet reports "without GPS (unavailable)"
because it tests Python truthiness of the stored latitude, while the
v1.1 handler tests presence and reports "with GPS" for the same
coordinates. -/
theorem c10_zero_latitude_note :
    (start_sos ⟨.jnum 0, .jnum 1⟩ initStateV1).2.gps_lat = some 0 ∧
    (start_sos ⟨.jnum 0, .jnum 1⟩ initStateV1).2.gps_lon = some 1 ∧
    (start_sos ⟨.jnum 0, .jnum 1⟩ initStateV1).1.lat = some 0 ∧
    (start_sos ⟨.jnum 0, .jnum 1⟩ initStateV1).1.message =
      "SOS received. Drone activating without GPS (unavailable)." ∧
    (mission_start ⟨.jnum 0, .jnum 1⟩ initState).2.gps_lat = some 0 ∧
    (mission_start ⟨.jnum 0, .jnum 1⟩ initState).1.message =
      "Mission started with GPS." := by
  refine ⟨rfl, rfl, rfl, by decide, rfl, by decide⟩
